import Mathlib

/-!
Verification of the simpyvis repository: a shallow embedding of the
simulation-thread logic of `main.py` (vehicle/waypoint variant),
`tank_simulation.py` (tank variant) and `tank_dash.py` (dashboard variant),
together with theorems settling the specification claims.

Machine reals (Python floats) are embedded as `ℚ`; the operations the claims
concern (affine interpolation on integer grids, clamping, constant-rate Euler
steps) are exact in this range.  The Python form `int(x)` (truncation toward zero)
is embedded as `pyInt`.
-/

/-- Python `int(x)`: truncation toward zero. -/
def pyInt (q : ℚ) : ℤ := if q < 0 then ⌈q⌉ else ⌊q⌋

/-- `max(0.0, min(1.0, t))` — the clamp used by `linear_interpolate`. -/
def clamp01 (t : ℚ) : ℚ := max 0 (min 1 t)

/-- `max(0, min(MAX_VOLUME, v))` with `MAX_VOLUME = 1000`, the clamp used by
`SimulationState.update_volume` (tank_simulation.py line 41) and by
`SharedState.update_volume` (tank_dash.py line 46). -/
def clampVol (v : ℚ) : ℚ := max 0 (min 1000 v)

namespace Main

/-- The waypoint cycle of `vehicle_process` (main.py lines 55-62), with
`SCREEN_WIDTH = 800`, `SCREEN_HEIGHT = 600` substituted. -/
def waypoints : List (ℤ × ℤ) :=
  [(50, 300), (750, 300), (750, 50), (50, 50), (50, 550), (750, 550)]

/-- Squared Euclidean distance.  `vehicle_process` compares `math.dist`
values (main.py lines 69-71); since the square root is strictly monotone and
the coordinates are integers, comparing squared distances selects the same
indices, exactly. -/
def distSq (a b : ℤ × ℤ) : ℤ := (a.1 - b.1) ^ 2 + (a.2 - b.2) ^ 2

/-- The scan of main.py lines 66-72: running over the enumerated waypoints,
keep the first index whose distance is strictly smaller than the best so far
(`min_dist` starts at infinity, embedded as `none`). -/
def nearestIdxAux (p : ℤ × ℤ) : List (ℕ × (ℤ × ℤ)) → ℕ → Option ℤ → ℕ
  | [], best, _ => best
  | (i, wp) :: rest, best, bestD =>
      let d := distSq p wp
      match bestD with
      | none => nearestIdxAux p rest i (some d)
      | some m =>
          if d < m then nearestIdxAux p rest i (some d)
          else nearestIdxAux p rest best (some m)

/-- Index of the waypoint nearest to `p` (first on ties), main.py lines 66-72
and 77-83. -/
def nearestIdx (p : ℤ × ℤ) (wps : List (ℤ × ℤ)) : ℕ :=
  nearestIdxAux p wps.enum 0 none

/-- The initial segment index of `vehicle_process` (main.py lines 64-85):
with `continue_to` set, the index of the nearest waypoint minus one modulo
the cycle length (the Python form `(idx - 1) % len`); with only `start_from`, the
nearest index itself; otherwise 0. -/
def initIdx (startFrom continueTo : Option (ℤ × ℤ)) : ℕ :=
  match continueTo with
  | some t => (nearestIdx t waypoints + waypoints.length - 1) % waypoints.length
  | none =>
      match startFrom with
      | some p => nearestIdx p waypoints
      | none => 0

/-- `current_pos` of a segment (main.py line 99): `start_from` when present,
else `waypoints[idx % len(waypoints)]`. -/
def segCurrent (idx : ℕ) (startFrom : Option (ℤ × ℤ)) : ℤ × ℤ :=
  startFrom.getD (waypoints.getD (idx % waypoints.length) (0, 0))

/-- `target_pos` of a segment (main.py lines 100-102): `continue_to` when
present, else `waypoints[(idx + 1) % len(waypoints)]`.  This is the value
published to `state.target_pos` (line 108). -/
def segTarget (idx : ℕ) (continueTo : Option (ℤ × ℤ)) : ℤ × ℤ :=
  continueTo.getD (waypoints.getD ((idx + 1) % waypoints.length) (0, 0))

/-- First published target of a runner resumed with `start_from = p`,
`continue_to = t` (main.py lines 100-108, evaluated on the first loop
iteration). -/
def firstTarget (p t : ℤ × ℤ) : ℤ × ℤ :=
  segTarget (initIdx (some p) (some t)) (some t)

/-- `current_pos` of the second segment of a resumed runner: after the first
iteration `start_from`/`continue_to` are cleared (lines 103-104) and `idx`
has been incremented once (line 145). -/
def secondCurrent (p t : ℤ × ℤ) : ℤ × ℤ :=
  segCurrent (initIdx (some p) (some t) + 1) none

/-- Target published on the second segment of a resumed runner. -/
def secondTarget (p t : ℤ × ℤ) : ℤ × ℤ :=
  segTarget (initIdx (some p) (some t) + 1) none

/-- `linear_interpolate` (main.py lines 229-238): clamp `t` to `[0,1]`,
interpolate each coordinate affinely, truncate with `int(...)`. -/
def linear_interpolate (a b : ℤ × ℤ) (t : ℚ) : ℤ × ℤ :=
  let s := clamp01 t
  (pyInt ((a.1 : ℚ) + ((b.1 : ℚ) - (a.1 : ℚ)) * s),
   pyInt ((a.2 : ℚ) + ((b.2 : ℚ) - (a.2 : ℚ)) * s))

/-- The simulated-seconds argument `vehicle_process` passes to the dwell
timeout (main.py line 144): `wait_duration / current_factor / current_factor`
with `wait_duration = 2.0`. -/
def dwellSimSeconds (f : ℚ) : ℚ := 2 / f / f

/-- The `factor` argument `create_env` of main.py (line 44) passes to
`simpy.rt.RealtimeEnvironment`: the requested factor, unchanged. -/
def create_env_factor (f : ℚ) : ℚ := f

/-- The status messages written to `state.message` in main.py, by payload. -/
inductive VMsg
  | initMsg
  | movingTo (t : ℤ × ℤ)
  | arrivedWaiting (secs : ℚ)
  | speedChanged (f : ℚ)
deriving DecidableEq, Repr

/-- The shared `SimulationState` of main.py (lines 23-37). -/
structure VState where
  current_pos : ℤ × ℤ
  target_pos : ℤ × ℤ
  message : VMsg
  running : Bool
  factor : ℚ
deriving DecidableEq, Repr

/-- Initial shared state (main.py lines 27-32). -/
def vInit : VState :=
  { current_pos := (50, 300), target_pos := (50, 300),
    message := VMsg.initMsg, running := true, factor := 1 }

/-- Every write to the shared `SimulationState` of main.py, one constructor
per mutation site:
`updatePosition` — `update_position` (lines 34-37, called at 126 and 135);
`publishSegment` — lines 107-109; `publishArrived` — lines 139-142;
`haltOnFault` — the two `except` blocks (lines 150-160);
`supMessage` — lines 192-193; `supHalt` — lines 208 and 214;
`uiSetFactor` — the slider event handler (lines 326-327);
`uiShutdown` — lines 406-407. -/
inductive MainOp
  | updatePosition (p : ℤ × ℤ)
  | publishSegment (t : ℤ × ℤ)
  | publishArrived (secs : ℚ)
  | haltOnFault
  | supMessage (f : ℚ)
  | supHalt
  | uiSetFactor (f : ℚ)
  | uiShutdown
deriving DecidableEq, Repr

/-- Effect of each main.py write site on the shared state. -/
def applyMainOp (s : VState) : MainOp → VState
  | MainOp.updatePosition p => { s with current_pos := p }
  | MainOp.publishSegment t => { s with target_pos := t, message := VMsg.movingTo t }
  | MainOp.publishArrived secs => { s with message := VMsg.arrivedWaiting secs }
  | MainOp.haltOnFault => { s with running := false }
  | MainOp.supMessage f => { s with message := VMsg.speedChanged f }
  | MainOp.supHalt => { s with running := false }
  | MainOp.uiSetFactor f => { s with factor := f }
  | MainOp.uiShutdown => { s with running := false }

/-- The two fault kinds of the `try` block of the Process Runner: a SimPy
interrupt, or any other exception. -/
inductive Fault
  | interrupt
  | otherError
deriving DecidableEq, Repr

/-- The `except` handlers of `vehicle_process` (main.py lines 150-160): both
kinds set `state.running = False` and set the local loop guard false (second
component: whether the loop keeps running). -/
def vehicleHandleFault (s : VState) : Fault → VState × Bool
  | Fault.interrupt => ({ s with running := false }, false)
  | Fault.otherError => ({ s with running := false }, false)

/-- Locals of `run_simulation` in main.py: `is_running` (read once at lines
169-171, never refreshed inside the loop), `current_factor`, `last_pos`,
`last_target`. -/
structure MainSupLocals where
  is_running : Bool
  current_factor : ℚ
  last_pos : ℤ × ℤ
  last_target : ℤ × ℤ
deriving DecidableEq, Repr

/-- One supervisor check slice of main.py `run_simulation` (lines 179-203) as
it acts on the locals: snapshot position/target/factor under the lock
(lines 182-185), adopt the new factor on mismatch (lines 188-200), run the
engine for `check_interval`.  The loop guard `is_running` is never re-read
from the shared state. -/
def mainSupSlice (l : MainSupLocals) (shared : VState) : MainSupLocals :=
  { is_running := l.is_running,
    current_factor := shared.factor,
    last_pos := shared.current_pos,
    last_target := shared.target_pos }

/-- Iterated supervisor slices against a fixed shared snapshot. -/
def mainSupSlices (l : MainSupLocals) (shared : VState) : ℕ → MainSupLocals
  | 0 => l
  | n + 1 => mainSupSlices (mainSupSlice l shared) shared n

end Main

namespace Tank

/-- The status messages written to `state.message` in tank_simulation.py. -/
inductive TMsg
  | initMsg
  | filling (rate : ℚ)
  | emptying (rate : ℚ)
  | stable
deriving DecidableEq, Repr

/-- The shared `SimulationState` of tank_simulation.py (lines 27-41). -/
structure TState where
  current_volume : ℚ
  inflow_rate : ℚ
  outflow_rate : ℚ
  message : TMsg
  running : Bool
  factor : ℚ
deriving DecidableEq, Repr

/-- Initial shared state (tank_simulation.py lines 30-36). -/
def tInit : TState :=
  { current_volume := 0, inflow_rate := 50, outflow_rate := 30,
    message := TMsg.initMsg, running := true, factor := 1 }

/-- One update tick of `tank_process` (tank_simulation.py lines 56-78):
read the rates, add `net_flow * update_interval` with
`update_interval = 1/60`, publish through `update_volume` (clamped to
`[0, MAX_VOLUME]`), set the message.  The next iteration re-reads
`state.current_volume` (line 81), i.e. continues from the clamped value. -/
def tankTick (s : TState) : TState :=
  let net := s.inflow_rate - s.outflow_rate
  let v := s.current_volume + net * (1 / 60)
  { s with
    current_volume := clampVol v,
    message :=
      if 0 < net then TMsg.filling net
      else if net < 0 then TMsg.emptying (-net)
      else TMsg.stable }

/-- `n` consecutive ticks of `tank_process`. -/
def tankRun (s : TState) : ℕ → TState
  | 0 => s
  | n + 1 => tankTick (tankRun s n)

/-- The guarded loop of `tank_process` (lines 54-81): each iteration runs one
tick, and the loop re-checks `state.running` after the suspend of each tick. -/
def tankLoop (s : TState) : ℕ → TState
  | 0 => s
  | n + 1 => if s.running then tankLoop (tankTick s) n else s

/-- The `except` handlers of `tank_process` (tank_simulation.py lines 84-89):
both kinds only `break` — the shared state, including `running`, is left
untouched; the loop stops. -/
def tankHandleFault (s : TState) : Main.Fault → TState × Bool
  | Main.Fault.interrupt => (s, false)
  | Main.Fault.otherError => (s, false)

/-- Every write to the shared `SimulationState` of tank_simulation.py:
`updateVolume` — `update_volume` (lines 38-41, called at 66);
`publishMessage` — lines 69-75; `supRestoreVolume` — the unlocked
`state.current_volume = current_volume` at line 125; `supHalt` — line 133
and 141; `uiSetFactor` / `uiSetInflow` / `uiSetOutflow` — the slider
handlers (lines 249-264); `uiShutdown` — lines 344-345. -/
inductive TankOp
  | updateVolume (v : ℚ)
  | publishMessage (m : TMsg)
  | supRestoreVolume (v : ℚ)
  | supHalt
  | uiSetFactor (f : ℚ)
  | uiSetInflow (r : ℚ)
  | uiSetOutflow (r : ℚ)
  | uiShutdown
deriving DecidableEq, Repr

/-- Effect of each tank_simulation.py write site on the shared state. -/
def applyTankOp (s : TState) : TankOp → TState
  | TankOp.updateVolume v => { s with current_volume := clampVol v }
  | TankOp.publishMessage m => { s with message := m }
  | TankOp.supRestoreVolume v => { s with current_volume := v }
  | TankOp.supHalt => { s with running := false }
  | TankOp.uiSetFactor f => { s with factor := f }
  | TankOp.uiSetInflow r => { s with inflow_rate := r }
  | TankOp.uiSetOutflow r => { s with outflow_rate := r }
  | TankOp.uiShutdown => { s with running := false }

/-- Locals of `run_simulation` in tank_simulation.py: `is_running` is
re-read from the shared state at the end of every loop iteration
(lines 136-137). -/
structure TankSupLocals where
  is_running : Bool
  current_factor : ℚ
deriving DecidableEq, Repr

/-- One supervisor check slice of tank_simulation.py `run_simulation`
(lines 112-137): poll the factor, adopt it on mismatch, run the engine for
`check_interval`, then refresh the loop guard from `state.running`. -/
def tankSupSlice (_l : TankSupLocals) (shared : TState) : TankSupLocals :=
  { is_running := shared.running,
    current_factor := shared.factor }

/-- The `factor` argument `create_env` of tank_simulation.py (line 96)
passes to `simpy.rt.RealtimeEnvironment`: the reciprocal of the requested
factor (the code comments that it deliberately inverts). -/
def create_env_factor (f : ℚ) : ℚ := 1 / f

end Tank

/-- Modelled from the spec: the real-time Clock Engine (`simpy.rt.
RealtimeEnvironment`, an external library, absent from src/) delays a
suspend of `d` simulated seconds by `d × factor` wall-clock seconds, where
`factor` is the wall-clock-seconds-per-simulated-second value the engine was
built with (spec §4.1: the resuming wall-clock delay scales linearly with
the duration by the factor of the engine). -/
def wallClockDelay (envFactor d : ℚ) : ℚ := d * envFactor

namespace Dash

/-- The `SharedState` of tank_dash.py (lines 30-42), parametrised by the
surface/image type `S` (pygame surfaces and PIL images are external).
the Python `self._pygame_surface = None` is `none`; the attribute
`pygame_surface` that `pygame_loop` line 154 creates dynamically is a
distinct field, also starting absent (`none`). -/
structure DashShared (S : Type) where
  volume : ℚ
  inflow : ℚ
  outflow : ℚ
  _pygame_surface : Option S
  pygame_surface : Option S
  volume_history : List ℚ
  time_history : List ℚ
  running : Bool

/-- Initial dashboard shared state (tank_dash.py lines 31-42). -/
def dashInit (S : Type) : DashShared S :=
  { volume := 0, inflow := 50, outflow := 30,
    _pygame_surface := none, pygame_surface := none,
    volume_history := [], time_history := [], running := true }

/-- `SharedState.update_volume` (tank_dash.py lines 44-53): clamp the new
volume, append the clamped value and the sample time to the two history
lists, and if the volume history now exceeds 100 entries, `pop(0)` the
oldest entry of both.  `t` stands for `time.time() - self.start_time`. -/
def update_volume (st : DashShared S) (v t : ℚ) : DashShared S :=
  let vol := clampVol v
  let vh := st.volume_history ++ [vol]
  let th := st.time_history ++ [t]
  if 100 < vh.length then
    { st with volume := vol, volume_history := vh.drop 1, time_history := th.drop 1 }
  else
    { st with volume := vol, volume_history := vh, time_history := th }

/-- `SharedState.update_surface` (tank_dash.py lines 55-66): the only writer
of `_pygame_surface`.  No call site in the module invokes it. -/
def update_surface (st : DashShared S) (surface : S) : DashShared S :=
  { st with _pygame_surface := some surface }

/-- `SharedState.get_surface` (tank_dash.py lines 68-70). -/
def get_surface (st : DashShared S) : Option S := st._pygame_surface

/-- Every `SharedState` write the tank_dash.py module actually performs, one
constructor per call site:
`loopUpdateVolume` — `pygame_loop` line 137 (via `update_volume`);
`loopStoreFrame` — `pygame_loop` line 154, `state.pygame_surface = ...`,
which creates/overwrites the attribute *without* the leading underscore;
`cbSetFlows` — the `update_flows` callback lines 308-310, which keeps the
old value when a slider reports `None`.
`update_surface` has no call site and therefore no constructor. -/
inductive DashOp (S : Type)
  | loopUpdateVolume (v t : ℚ)
  | loopStoreFrame (surface : S)
  | cbSetFlows (i o : Option ℚ)

/-- Effect of each tank_dash.py write site on the shared state. -/
def applyDashOp (st : DashShared S) : DashOp S → DashShared S
  | DashOp.loopUpdateVolume v t => update_volume st v t
  | DashOp.loopStoreFrame surface => { st with pygame_surface := some surface }
  | DashOp.cbSetFlows i o =>
      { st with inflow := i.getD st.inflow, outflow := o.getD st.outflow }

/-- The source of the `tank-image` `src` attribute that `update_tank_image`
(tank_dash.py lines 245-263) returns: the empty string when no surface is
available, otherwise a base64 data URL of the encoded surface (the encoding
itself is external I/O). -/
inductive TankImageSrc (S : Type)
  | emptyString
  | dataUrl (surface : S)
deriving DecidableEq, Repr

/-- `update_tank_image` (tank_dash.py lines 245-263): returns `""` when
`state.get_surface()` is `None`, otherwise the encoded data URL. -/
def update_tank_image (st : DashShared S) : TankImageSrc S :=
  match get_surface st with
  | none => TankImageSrc.emptyString
  | some surface => TankImageSrc.dataUrl surface

/-- A sequence of `update_volume` calls (sample recording), oldest first. -/
def dashRecord (st : DashShared S) (samples : List (ℚ × ℚ)) : DashShared S :=
  samples.foldl (fun s p => update_volume s p.1 p.2) st

end Dash

namespace LockModel

/-- The fields of the two shared-state objects the lock-discipline claim
cites (main.py `SimulationState` and tank_dash.py `SharedState`). -/
inductive Field
  | current_pos
  | target_pos
  | message
  | running
  | factor
  | volume
  | inflow
  | outflow
  | volume_history
  | time_history
  | pygame_surface
deriving DecidableEq, Repr

/-- One shared-state field access inside a loop iteration: which field, and
the index of the `with state.lock:` block it sits in (`none` = outside any
lock). -/
structure ReadAccess where
  field : Field
  lockSection : Option ℕ
deriving DecidableEq, Repr

/-- `true` when a non-empty access group sits entirely inside one lock
section: the first access is locked and every other access is in the same
section. -/
def allUnderOneLock : List ReadAccess → Bool
  | [] => true
  | e :: rest => e.lockSection.isSome && rest.all (fun x => x.lockSection == e.lockSection)

/-- The shared-state reads of one render-frame iteration of `main()` in
main.py (lines 329-370), in program order: `current_pos`, `target_pos`,
`message` and `running` inside the single `with state.lock:` block
(lines 332-338, section 0), then `state.factor` twice with no lock held —
as the `draw_slider` argument (line 361) and in the speed label (line 367). -/
def mainFrameReads : List ReadAccess :=
  [⟨Field.current_pos, some 0⟩, ⟨Field.target_pos, some 0⟩,
   ⟨Field.message, some 0⟩, ⟨Field.running, some 0⟩,
   ⟨Field.factor, none⟩, ⟨Field.factor, none⟩]

/-- Lock events: acquisitions and releases of the single `state.lock`
(a non-reentrant `threading.Lock`). -/
inductive LockEvent
  | acquire
  | release
  | touch (f : Field)
deriving DecidableEq, Repr

/-- Scan a lock-event trace with the current hold depth; `true` when some
`acquire` happens while the lock is already held — which blocks forever on a
non-reentrant lock. -/
def acquiresWhileHeld : List LockEvent → ℕ → Bool
  | [], _ => false
  | LockEvent.acquire :: rest, d => decide (0 < d) || acquiresWhileHeld rest (d + 1)
  | LockEvent.release :: rest, d => acquiresWhileHeld rest (d - 1)
  | LockEvent.touch _ :: rest, d => acquiresWhileHeld rest d

/-- The lock-event trace of one iteration of `pygame_loop` in tank_dash.py
(lines 129-156): the `with state.lock:` block (lines 133-137) reads
`volume`, `inflow`, `outflow`, and then — still inside the block — calls
`state.update_volume(...)`, whose body (lines 44-53) opens `with self.lock:`
again on the same non-reentrant lock; after the block, `state.volume` is
read twice with no lock (lines 140 and 143), and a final `with state.lock:`
block stores the frame under the `pygame_surface` attribute (lines 153-154). -/
def pygameLoopTrace : List LockEvent :=
  [LockEvent.acquire,
   LockEvent.touch Field.volume, LockEvent.touch Field.inflow,
   LockEvent.touch Field.outflow,
   LockEvent.acquire,
   LockEvent.touch Field.volume, LockEvent.touch Field.volume_history,
   LockEvent.touch Field.time_history,
   LockEvent.release,
   LockEvent.release,
   LockEvent.touch Field.volume, LockEvent.touch Field.volume,
   LockEvent.acquire, LockEvent.touch Field.pygame_surface, LockEvent.release]

/-- The same `pygame_loop` iteration as an access-group list with lock
sections (the nested `update_volume` acquisition is section 1, the final
frame store section 2; the two unlocked `state.volume` draws are `none`). -/
def pygameLoopAccesses : List ReadAccess :=
  [⟨Field.volume, some 0⟩, ⟨Field.inflow, some 0⟩, ⟨Field.outflow, some 0⟩,
   ⟨Field.volume, some 1⟩, ⟨Field.volume_history, some 1⟩,
   ⟨Field.time_history, some 1⟩,
   ⟨Field.volume, none⟩, ⟨Field.volume, none⟩,
   ⟨Field.pygame_surface, some 2⟩]

/-- Number of distinct fields an access group touches. -/
def distinctFields (acc : List ReadAccess) : ℕ :=
  (acc.map (fun e => e.field)).dedup.length

end LockModel



/-! ## Helper lemmas -/

theorem pyInt_intCast (z : ℤ) : pyInt (z : ℚ) = z := by
  unfold pyInt
  split_ifs <;> simp

theorem pyInt_mono {q r : ℚ} (h : q ≤ r) : pyInt q ≤ pyInt r := by
  unfold pyInt
  split_ifs with hq hr hr
  · exact Int.ceil_le_ceil h
  · have h1 : ⌈q⌉ ≤ 0 := by
      rw [Int.ceil_le]
      push_cast
      linarith
    have h2 : (0 : ℤ) ≤ ⌊r⌋ := by
      rw [Int.le_floor]
      push_cast
      linarith
    omega
  · linarith
  · exact Int.floor_le_floor h

theorem clamp01_zero : clamp01 0 = 0 := by norm_num [clamp01]

theorem clamp01_one : clamp01 1 = 1 := by norm_num [clamp01]

theorem clamp01_mono {t t' : ℚ} (h : t ≤ t') : clamp01 t ≤ clamp01 t' :=
  max_le_max le_rfl (min_le_min le_rfl h)

theorem clamp01_nonneg (t : ℚ) : 0 ≤ clamp01 t := le_max_left 0 _

theorem clamp01_le_one (t : ℚ) : clamp01 t ≤ 1 :=
  max_le (by norm_num) (min_le_left _ _)

theorem clamp01_of_mem {t : ℚ} (h0 : 0 ≤ t) (h1 : t ≤ 1) : clamp01 t = t := by
  unfold clamp01
  rw [min_eq_right h1, max_eq_right h0]

theorem clamp01_idem (t : ℚ) : clamp01 (clamp01 t) = clamp01 t :=
  clamp01_of_mem (clamp01_nonneg t) (clamp01_le_one t)

theorem clampVol_nonneg (v : ℚ) : 0 ≤ clampVol v := le_max_left 0 _

theorem clampVol_le (v : ℚ) : clampVol v ≤ 1000 :=
  max_le (by norm_num) (min_le_left _ _)

theorem clampVol_of_mem {v : ℚ} (h0 : 0 ≤ v) (h1 : v ≤ 1000) : clampVol v = v := by
  unfold clampVol
  rw [min_eq_right h1, max_eq_right h0]

theorem clampVol_step (x c : ℚ) (hpos : 0 ≤ c → 0 ≤ x) (hneg : c ≤ 0 → x ≤ 1000) :
    clampVol (clampVol x + c) = clampVol (x + c) := by
  rcases le_total 0 c with hc | hc
  · have hx := hpos hc
    simp only [clampVol, max_def, min_def]
    split_ifs <;> linarith
  · have hx := hneg hc
    simp only [clampVol, max_def, min_def]
    split_ifs <;> linarith

/-! ## Claim C2: speed-factor convention -/

/-- Claim C2 counterexample: at factor 2, `create_env` of main.py passes 2 to
the real-time engine while `create_env` of tank_simulation.py passes 1/2; a
suspend of 3 simulated seconds costs 6 wall-clock seconds under the former
(not 3/2 = d/f) and 3/2 under the latter.  The two variants do not implement
one consistent convention. -/
theorem C2_counterexample :
    Main.create_env_factor 2 ≠ Tank.create_env_factor 2 ∧
    wallClockDelay (Main.create_env_factor 2) 3 ≠ 3 / 2 ∧
    wallClockDelay (Tank.create_env_factor 2) 3 = 3 / 2 := by
  refine ⟨?_, ?_, ?_⟩ <;>
    norm_num [Main.create_env_factor, Tank.create_env_factor, wallClockDelay]

/-- Claim C2 amended: the two variants invert the convention relative to each
other.  For every factor f > 0 and duration d ≥ 0, a suspend of d simulated
seconds costs d / f wall-clock seconds under `create_env` of
tank_simulation.py but d × f wall-clock seconds under `create_env` of
main.py; the two wall-clock scales are mutually reciprocal, so they agree
only at f = 1. -/
theorem C2_amended (f d : ℚ) (hf : 0 < f) (hd : 0 ≤ d) :
    wallClockDelay (Tank.create_env_factor f) d = d / f ∧
    wallClockDelay (Main.create_env_factor f) d = d * f ∧
    Main.create_env_factor f * Tank.create_env_factor f = 1 ∧
    (Main.create_env_factor f = Tank.create_env_factor f ↔ f = 1) := by
  have hf0 : f ≠ 0 := ne_of_gt hf
  refine ⟨?_, rfl, ?_, ?_⟩
  · unfold wallClockDelay Tank.create_env_factor
    field_simp
  · unfold Main.create_env_factor Tank.create_env_factor
    field_simp
  · unfold Main.create_env_factor Tank.create_env_factor
    constructor
    · intro h
      have h2 : f * f = 1 := by
        field_simp at h
        linarith [h]
      have h3 : (f - 1) * (f + 1) = 0 := by ring_nf; linarith [h2]
      rcases mul_eq_zero.mp h3 with h4 | h4
      · linarith
      · linarith
    · intro h
      rw [h]
      norm_num

/-- Claim C2 amended, witnessed at f = 2, d = 3. -/
theorem C2_amended_witness :
    (0 : ℚ) < 2 ∧ (0 : ℚ) ≤ 3 ∧
    wallClockDelay (Tank.create_env_factor 2) 3 = 3 / 2 :=
  ⟨by norm_num, by norm_num, (C2_amended 2 3 (by norm_num) (by norm_num)).1⟩

/-! ## Claim C3: fixed dwell -/

/-- Claim C3: the dwell is not a fixed 2.0 simulated seconds.  The timeout
argument at main.py line 144 is `2.0 / factor / factor`: at factor 2 the
process suspends for 1/2 simulated second, not 2; only factor 1 reproduces
the 2.0-second dwell.  (The in-code comment `# 2 seconds` and the published
message, which announces `wait_duration / current_factor`, both disagree
with the double division — the code bug the spec flags in §9.) -/
theorem C3_dwell_not_fixed :
    Main.dwellSimSeconds 2 = 1 / 2 ∧
    Main.dwellSimSeconds 2 ≠ 2 ∧
    Main.dwellSimSeconds 1 = 2 := by
  norm_num [Main.dwellSimSeconds]

/-! ## Claim C4: fatal-exit flag discipline -/

/-- Claim C4 counterexample: the interrupt handler of `tank_process`
(tank_simulation.py lines 84-86) exits the loop by `break`, leaving the
shared liveness flag `running` still true — it does not set it false. -/
theorem C4_counterexample :
    (Tank.tankHandleFault Tank.tInit Main.Fault.interrupt).1.running = true ∧
    (Tank.tankHandleFault Tank.tInit Main.Fault.interrupt).2 = false :=
  ⟨rfl, rfl⟩

/-- Claim C4 amended: only the main.py variant observes the discipline.  On
either fault kind, `vehicle_process` sets `running` false, leaves every
other shared field in place, and exits its loop; `tank_process` exits its
loop with the whole shared state — including the liveness flag — untouched. -/
theorem C4_amended (s : Main.VState) (t : Tank.TState) (f g : Main.Fault) :
    (Main.vehicleHandleFault s f).1 = { s with running := false } ∧
    (Main.vehicleHandleFault s f).2 = false ∧
    (Tank.tankHandleFault t g).1 = t ∧
    (Tank.tankHandleFault t g).2 = false := by
  cases f <;> cases g <;> exact ⟨rfl, rfl, rfl, rfl⟩

/-! ## Claim C5: liveness-flag termination -/

/-- Claim C5 counterexample: in main.py, `run_simulation` reads its loop
guard `is_running` once at entry (lines 169-171) and never refreshes it from
the shared state, so with the shared flag already false the guard is still
true after one check slice — and still true after 100 slices.  The
supervisor of the main.py variant does not exit within one check slice. -/
theorem C5_counterexample :
    ({ Main.vInit with running := false } : Main.VState).running = false ∧
    (Main.mainSupSlice ⟨true, 1, (50, 300), (50, 300)⟩
        { Main.vInit with running := false }).is_running = true ∧
    (Main.mainSupSlices ⟨true, 1, (50, 300), (50, 300)⟩
        { Main.vInit with running := false } 100).is_running = true := by
  refine ⟨rfl, rfl, ?_⟩
  decide

/-- Claim C5 amended: (1) no write site of either variant ever sets the
liveness flag back to true, so once false it stays false; (2) the
tank_simulation.py supervisor refreshes its guard from `state.running` every
slice, hence exits within one check slice of the flag going false, and its
process loop performs no further state changes once the flag is false;
(3) the main.py supervisor, by contrast, never re-reads the flag: its guard
after a slice is whatever it was before, so it does not exit. -/
theorem C5_amended :
    (∀ (s : Main.VState) (op : Main.MainOp),
      (Main.applyMainOp s op).running = true → s.running = true) ∧
    (∀ (s : Tank.TState) (op : Tank.TankOp),
      (Tank.applyTankOp s op).running = true → s.running = true) ∧
    (∀ (l : Tank.TankSupLocals) (shared : Tank.TState),
      shared.running = false → (Tank.tankSupSlice l shared).is_running = false) ∧
    (∀ (l : Main.MainSupLocals) (shared : Main.VState),
      (Main.mainSupSlice l shared).is_running = l.is_running) ∧
    (∀ (s : Tank.TState) (n : ℕ), s.running = false → Tank.tankLoop s n = s) := by
  refine ⟨?_, ?_, ?_, ?_, ?_⟩
  · intro s op h
    cases op <;> simp_all [Main.applyMainOp]
  · intro s op h
    cases op <;> simp_all [Tank.applyTankOp]
  · intro l shared h
    simp [Tank.tankSupSlice, h]
  · intro l shared
    rfl
  · intro s n h
    cases n with
    | zero => rfl
    | succ n => simp [Tank.tankLoop, h]

/-- Claim C5 amended, witnessed: the flag-monotonicity conjunct at the
initial state under a factor write, the tank one-slice exit at a dead shared
state, and the stopped tank loop at fuel 5. -/
theorem C5_amended_witness :
    Main.vInit.running = true ∧
    (Tank.tankSupSlice ⟨true, 1⟩ { Tank.tInit with running := false }).is_running = false ∧
    Tank.tankLoop { Tank.tInit with running := false } 5 =
      { Tank.tInit with running := false } :=
  ⟨C5_amended.1 Main.vInit (Main.MainOp.uiSetFactor 2) rfl,
   C5_amended.2.2.1 ⟨true, 1⟩ { Tank.tInit with running := false } rfl,
   C5_amended.2.2.2.2 { Tank.tInit with running := false } 5 rfl⟩

/-! ## Claim C8: linear interpolation -/

/-- Claim C8: `linear_interpolate` first clamps t to [0, 1] (composing with
the clamp changes nothing), returns A at t = 0 and B at t = 1, and each
output coordinate is monotone in t — non-decreasing when the B coordinate is
at least the A coordinate, non-increasing otherwise. -/
theorem C8_linear_interpolate (a b : ℤ × ℤ) (t t' : ℚ) (h : t ≤ t') :
    Main.linear_interpolate a b t = Main.linear_interpolate a b (clamp01 t) ∧
    Main.linear_interpolate a b 0 = a ∧
    Main.linear_interpolate a b 1 = b ∧
    (a.1 ≤ b.1 →
      (Main.linear_interpolate a b t).1 ≤ (Main.linear_interpolate a b t').1) ∧
    (b.1 ≤ a.1 →
      (Main.linear_interpolate a b t').1 ≤ (Main.linear_interpolate a b t).1) ∧
    (a.2 ≤ b.2 →
      (Main.linear_interpolate a b t).2 ≤ (Main.linear_interpolate a b t').2) ∧
    (b.2 ≤ a.2 →
      (Main.linear_interpolate a b t').2 ≤ (Main.linear_interpolate a b t).2) := by
  have hmono :
      ∀ (A B : ℤ) (s s' : ℚ), s ≤ s' → (A : ℚ) ≤ (B : ℚ) →
        pyInt ((A : ℚ) + ((B : ℚ) - (A : ℚ)) * s) ≤
          pyInt ((A : ℚ) + ((B : ℚ) - (A : ℚ)) * s') := by
    intro A B s s' hs hAB
    apply pyInt_mono
    have : ((B : ℚ) - (A : ℚ)) * s ≤ ((B : ℚ) - (A : ℚ)) * s' :=
      mul_le_mul_of_nonneg_left hs (by linarith)
    linarith
  have hanti :
      ∀ (A B : ℤ) (s s' : ℚ), s ≤ s' → (B : ℚ) ≤ (A : ℚ) →
        pyInt ((A : ℚ) + ((B : ℚ) - (A : ℚ)) * s') ≤
          pyInt ((A : ℚ) + ((B : ℚ) - (A : ℚ)) * s) := by
    intro A B s s' hs hBA
    apply pyInt_mono
    have : ((B : ℚ) - (A : ℚ)) * s' ≤ ((B : ℚ) - (A : ℚ)) * s :=
      mul_le_mul_of_nonpos_left hs (by linarith)
    linarith
  refine ⟨?_, ?_, ?_, ?_, ?_, ?_, ?_⟩
  · simp only [Main.linear_interpolate, clamp01_idem]
  · have e1 : (a.1 : ℚ) + ((b.1 : ℚ) - (a.1 : ℚ)) * clamp01 0 = (a.1 : ℚ) := by
      rw [clamp01_zero]; ring
    have e2 : (a.2 : ℚ) + ((b.2 : ℚ) - (a.2 : ℚ)) * clamp01 0 = (a.2 : ℚ) := by
      rw [clamp01_zero]; ring
    simp only [Main.linear_interpolate, e1, e2, pyInt_intCast]
  · have e1 : (a.1 : ℚ) + ((b.1 : ℚ) - (a.1 : ℚ)) * clamp01 1 = (b.1 : ℚ) := by
      rw [clamp01_one]; ring
    have e2 : (a.2 : ℚ) + ((b.2 : ℚ) - (a.2 : ℚ)) * clamp01 1 = (b.2 : ℚ) := by
      rw [clamp01_one]; ring
    simp only [Main.linear_interpolate, e1, e2, pyInt_intCast]
  · intro hab
    exact hmono a.1 b.1 _ _ (clamp01_mono h) (by exact_mod_cast hab)
  · intro hba
    exact hanti a.1 b.1 _ _ (clamp01_mono h) (by exact_mod_cast hba)
  · intro hab
    exact hmono a.2 b.2 _ _ (clamp01_mono h) (by exact_mod_cast hab)
  · intro hba
    exact hanti a.2 b.2 _ _ (clamp01_mono h) (by exact_mod_cast hba)

/-- Claim C8, witnessed at A = (0, 0), B = (2, 3), t = 0 ≤ t' = 1. -/
theorem C8_linear_interpolate_witness :
    (0 : ℚ) ≤ 1 ∧
    Main.linear_interpolate (0, 0) (2, 3) 0 = (0, 0) ∧
    Main.linear_interpolate (0, 0) (2, 3) 1 = (2, 3) :=
  ⟨by norm_num,
   (C8_linear_interpolate (0, 0) (2, 3) 0 1 (by norm_num)).2.1,
   (C8_linear_interpolate (0, 0) (2, 3) 0 1 (by norm_num)).2.2.1⟩

/-! ## Claim C9: never-torn shared state -/

/-- Claim C9 counterexample: the render frame of `main()` in main.py reads
five distinct shared fields, but the two `state.factor` reads (lines 361 and
367) are outside any lock — the group is not held under one exclusive lock. -/
theorem C9_counterexample :
    1 < LockModel.distinctFields LockModel.mainFrameReads ∧
    LockModel.allUnderOneLock LockModel.mainFrameReads = false := by
  decide

/-- Claim C9 amended: in the main.py render frame the group
position/target/message/running is read under one lock section, and the only
unlocked reads are of `factor`; in `pygame_loop` of tank_dash.py the only
unlocked reads are of `volume` (the two drawing reads after the update
block), and the locked update block re-acquires the already-held
non-reentrant lock inside `update_volume` — a nested acquisition, so the
paired volume/history write is guarded but self-blocking. -/
theorem C9_amended :
    (LockModel.mainFrameReads.filter
        (fun e => e.lockSection == some 0)).map (fun e => e.field) =
      [LockModel.Field.current_pos, LockModel.Field.target_pos,
       LockModel.Field.message, LockModel.Field.running] ∧
    (∀ e ∈ LockModel.mainFrameReads,
      e.lockSection = none → e.field = LockModel.Field.factor) ∧
    LockModel.acquiresWhileHeld LockModel.pygameLoopTrace 0 = true ∧
    (∀ e ∈ LockModel.pygameLoopAccesses,
      e.lockSection = none → e.field = LockModel.Field.volume) := by
  decide

/-- Claim C9 amended, witnessed at the first unlocked factor read of the
main.py render frame. -/
theorem C9_amended_witness :
    (⟨LockModel.Field.factor, none⟩ : LockModel.ReadAccess).field =
      LockModel.Field.factor :=
  C9_amended.2.1 ⟨LockModel.Field.factor, none⟩ (by decide) rfl

/-! ## Claim C1: resumption correctness -/

/-- Claim C1: a Process Runner resumed with `start_from = P`,
`continue_to = T` publishes T as its first target for every P and every T
drawn from the waypoint cycle — not a different waypoint and not a reset to
index 0 — and after reaching T continues the cycle from the
nearest-by-distance match of T: the second segment starts at that nearest
waypoint (which is T itself, since T is on the cycle) and targets the
waypoint that follows it. -/
theorem secondCurrent_drop_start (P T : ℤ × ℤ) :
    Main.secondCurrent P T =
      Main.segCurrent (Main.initIdx none (some T) + 1) none := rfl

theorem secondTarget_drop_start (P T : ℤ × ℤ) :
    Main.secondTarget P T =
      Main.segTarget (Main.initIdx none (some T) + 1) none := rfl

theorem C1_resumption (P T : ℤ × ℤ) (hT : T ∈ Main.waypoints) :
    Main.firstTarget P T = T ∧
    Main.waypoints.getD (Main.nearestIdx T Main.waypoints) (0, 0) = T ∧
    Main.secondCurrent P T =
      Main.waypoints.getD (Main.nearestIdx T Main.waypoints) (0, 0) ∧
    Main.secondTarget P T =
      Main.waypoints.getD
        ((Main.nearestIdx T Main.waypoints + 1) % Main.waypoints.length) (0, 0) := by
  have hT' : T = (50, 300) ∨ T = (750, 300) ∨ T = (750, 50) ∨ T = (50, 50) ∨
      T = (50, 550) ∨ T = (750, 550) := by
    simpa [Main.waypoints] using hT
  rcases hT' with h | h | h | h | h | h <;> subst h <;>
    exact ⟨rfl, by decide, by rw [secondCurrent_drop_start]; decide,
      by rw [secondTarget_drop_start]; decide⟩

/-- Claim C1, witnessed at the factor-change scenario of spec §8: position
P = (400, 300) heading to target T = (750, 300); the resumed runner
publishes (750, 300) first and then continues to the following waypoint. -/
theorem C1_resumption_witness :
    ((750, 300) : ℤ × ℤ) ∈ Main.waypoints ∧
    Main.firstTarget (400, 300) (750, 300) = (750, 300) :=
  ⟨by decide, (C1_resumption (400, 300) (750, 300) (by decide)).1⟩

/-! ## Claim C6: volume integration -/

theorem tankRun_inflow (s : Tank.TState) : ∀ n : ℕ,
    (Tank.tankRun s n).inflow_rate = s.inflow_rate
  | 0 => rfl
  | n + 1 => tankRun_inflow s n

theorem tankRun_outflow (s : Tank.TState) : ∀ n : ℕ,
    (Tank.tankRun s n).outflow_rate = s.outflow_rate
  | 0 => rfl
  | n + 1 => tankRun_outflow s n

theorem tankTick_volume (s : Tank.TState) :
    (Tank.tankTick s).current_volume =
      clampVol (s.current_volume + (s.inflow_rate - s.outflow_rate) * (1 / 60)) :=
  rfl

/-- Claim C6: from a shared volume V in [0, MAX_VOLUME] with constant inflow
I and outflow O, after n ticks of size Δ = 1/60 (simulated duration
T = n × Δ) the shared volume is exactly clamp(V + (I − O) × n × Δ, 0, 1000)
— error zero, within the O(Δ) tolerance — and after every tick the shared
volume lies in [0, 1000]. -/
theorem C6_volume (s : Tank.TState) (h0 : 0 ≤ s.current_volume)
    (h1 : s.current_volume ≤ 1000) (n : ℕ) :
    (Tank.tankRun s n).current_volume =
      clampVol (s.current_volume +
        (s.inflow_rate - s.outflow_rate) * (1 / 60) * (n : ℚ)) ∧
    ∀ k : ℕ, 0 ≤ (Tank.tankRun s k).current_volume ∧
      (Tank.tankRun s k).current_volume ≤ 1000 := by
  constructor
  · set c : ℚ := (s.inflow_rate - s.outflow_rate) * (1 / 60) with hc
    induction n with
    | zero =>
        simp only [Tank.tankRun, Nat.cast_zero, mul_zero, add_zero]
        exact (clampVol_of_mem h0 h1).symm
    | succ n ih =>
        show (Tank.tankTick (Tank.tankRun s n)).current_volume = _
        rw [tankTick_volume, tankRun_inflow, tankRun_outflow, ih, ← hc]
        have hstep := clampVol_step (s.current_volume + c * (n : ℚ)) c
          (fun hcp => by positivity)
          (fun hcn => by
            have : c * (n : ℚ) ≤ 0 :=
              mul_nonpos_of_nonpos_of_nonneg hcn (Nat.cast_nonneg n)
            linarith)
        rw [hstep]
        congr 1
        push_cast
        ring
  · intro k
    cases k with
    | zero => exact ⟨h0, h1⟩
    | succ k =>
        show 0 ≤ (Tank.tankTick (Tank.tankRun s k)).current_volume ∧
          (Tank.tankTick (Tank.tankRun s k)).current_volume ≤ 1000
        rw [tankTick_volume]
        exact ⟨clampVol_nonneg _, clampVol_le _⟩

/-- Claim C6, witnessed at the end-to-end scenario of spec §8: inflow 50,
outflow 30, starting volume 0, after 600 ticks (10 simulated seconds) the
volume is exactly 200. -/
theorem C6_volume_witness :
    (0 : ℚ) ≤ Tank.tInit.current_volume ∧ Tank.tInit.current_volume ≤ 1000 ∧
    (Tank.tankRun Tank.tInit 600).current_volume = 200 := by
  have h := (C6_volume Tank.tInit (by norm_num [Tank.tInit])
    (by norm_num [Tank.tInit]) 600).1
  refine ⟨by norm_num [Tank.tInit], by norm_num [Tank.tInit], ?_⟩
  rw [h]
  norm_num [Tank.tInit, clampVol]


/-! ## Claim C7: ring buffer -/

theorem update_volume_vh_pop {S : Type} (st : Dash.DashShared S) (v t : ℚ)
    (hc : st.volume_history.length = 100) :
    (Dash.update_volume st v t).volume_history =
      (st.volume_history ++ [clampVol v]).drop 1 := by
  simp only [Dash.update_volume]
  rw [if_pos (by simp [hc])]

theorem update_volume_th_pop {S : Type} (st : Dash.DashShared S) (v t : ℚ)
    (hc : st.volume_history.length = 100) :
    (Dash.update_volume st v t).time_history =
      (st.time_history ++ [t]).drop 1 := by
  simp only [Dash.update_volume]
  rw [if_pos (by simp [hc])]

theorem update_volume_vh_push {S : Type} (st : Dash.DashShared S) (v t : ℚ)
    (hc : st.volume_history.length < 100) :
    (Dash.update_volume st v t).volume_history =
      st.volume_history ++ [clampVol v] := by
  simp only [Dash.update_volume]
  rw [if_neg (by simp; omega)]

theorem update_volume_th_push {S : Type} (st : Dash.DashShared S) (v t : ℚ)
    (hc : st.volume_history.length < 100) :
    (Dash.update_volume st v t).time_history =
      st.time_history ++ [t] := by
  simp only [Dash.update_volume]
  rw [if_neg (by simp; omega)]

/-- The history buffers after any run of `update_volume` calls on histories
of equal length at most 100: both hold the suffix of all recorded values
past the first `total - 100`, in recording order. -/
theorem dashRecord_histories {S : Type} (samples : List (ℚ × ℚ)) :
    ∀ st : Dash.DashShared S,
      st.volume_history.length ≤ 100 →
      st.time_history.length = st.volume_history.length →
      (Dash.dashRecord st samples).volume_history =
        (st.volume_history ++ samples.map fun p => clampVol p.1).drop
          (st.volume_history.length + samples.length - 100) ∧
      (Dash.dashRecord st samples).time_history =
        (st.time_history ++ samples.map Prod.snd).drop
          (st.volume_history.length + samples.length - 100) := by
  induction samples with
  | nil =>
      intro st hlen heq
      constructor
      · simp [Dash.dashRecord, Nat.sub_eq_zero_of_le hlen]
      · simp [Dash.dashRecord, Nat.sub_eq_zero_of_le hlen]
  | cons p rest ih =>
      intro st hlen heq
      have hrec : Dash.dashRecord st (p :: rest) =
          Dash.dashRecord (Dash.update_volume st p.1 p.2) rest := rfl
      rcases eq_or_lt_of_le hlen with hcl | hc
      · -- the buffer is full: the oldest entry of both histories is evicted
        have hcl : st.volume_history.length = 100 := hcl
        have hvh := update_volume_vh_pop st p.1 p.2 hcl
        have hth := update_volume_th_pop st p.1 p.2 hcl
        have hLv : (Dash.update_volume st p.1 p.2).volume_history.length = 100 := by
          rw [hvh]
          simp [hcl]
        obtain ⟨ihv, iht⟩ := ih (Dash.update_volume st p.1 p.2)
          (le_of_eq hLv)
          (by rw [hth, hvh]; simp [heq, hcl])
        rw [hLv, hvh] at ihv
        rw [hLv, hth] at iht
        have hcount : 100 + rest.length - 100 = rest.length := by omega
        rw [hcount] at ihv iht
        rw [hrec]
        constructor
        · rw [ihv]
          have key : (st.volume_history ++ [clampVol p.1]).drop 1 ++
                (rest.map fun q => clampVol q.1) =
              (st.volume_history ++
                ((p :: rest).map fun q => clampVol q.1)).drop 1 := by
            rw [List.map_cons, List.drop_append_eq_append_drop,
              List.drop_append_eq_append_drop, hcl]
            simp
          have hgoal : st.volume_history.length + (p :: rest).length - 100 =
              rest.length + 1 := by
            simp [hcl]
          rw [hgoal, key, List.drop_drop, Nat.add_comm 1 rest.length]
        · rw [iht]
          have key : (st.time_history ++ [p.2]).drop 1 ++
                (rest.map Prod.snd) =
              (st.time_history ++ ((p :: rest).map Prod.snd)).drop 1 := by
            rw [List.map_cons, List.drop_append_eq_append_drop,
              List.drop_append_eq_append_drop, heq, hcl]
            simp
          have hgoal : st.volume_history.length + (p :: rest).length - 100 =
              rest.length + 1 := by
            simp [hcl]
          rw [hgoal, key, List.drop_drop, Nat.add_comm 1 rest.length]
      · -- room left: both histories just grow
        have hvh := update_volume_vh_push st p.1 p.2 hc
        have hth := update_volume_th_push st p.1 p.2 hc
        have hLv : (Dash.update_volume st p.1 p.2).volume_history.length =
            st.volume_history.length + 1 := by
          rw [hvh]
          simp
        obtain ⟨ihv, iht⟩ := ih (Dash.update_volume st p.1 p.2)
          (by rw [hLv]; omega)
          (by rw [hth, hvh]; simp [heq])
        rw [hLv, hvh] at ihv
        rw [hLv, hth] at iht
        rw [hrec]
        constructor
        · rw [ihv]
          have key : (st.volume_history ++ [clampVol p.1]) ++
                (rest.map fun q => clampVol q.1) =
              st.volume_history ++ ((p :: rest).map fun q => clampVol q.1) := by
            rw [List.map_cons, List.append_assoc, List.singleton_append]
          have hgoal : st.volume_history.length + 1 + rest.length =
              st.volume_history.length + (p :: rest).length := by
            simp
            omega
          rw [key, hgoal]
        · rw [iht]
          have key : (st.time_history ++ [p.2]) ++ (rest.map Prod.snd) =
              st.time_history ++ ((p :: rest).map Prod.snd) := by
            rw [List.map_cons, List.append_assoc, List.singleton_append]
          have hgoal : st.volume_history.length + 1 + rest.length =
              st.volume_history.length + (p :: rest).length := by
            simp
            omega
          rw [key, hgoal]

theorem dashInit_vh (S : Type) : (Dash.dashInit S).volume_history = [] := rfl

theorem dashInit_th (S : Type) : (Dash.dashInit S).time_history = [] := rfl

/-- Claim C7: after N > 100 calls of `update_volume` of tank_dash.py from
the initial (empty) state, the two history buffers hold exactly the 100 most
recent samples — the recorded (clamped) volumes and their times past the
first N − 100 — in chronological order, the oldest having been evicted
first; both buffers have length exactly 100. -/
theorem C7_ring_buffer {S : Type} (samples : List (ℚ × ℚ))
    (h : 100 < samples.length) :
    (Dash.dashRecord (Dash.dashInit S) samples).volume_history =
      (samples.map fun p => clampVol p.1).drop (samples.length - 100) ∧
    (Dash.dashRecord (Dash.dashInit S) samples).time_history =
      (samples.map Prod.snd).drop (samples.length - 100) ∧
    (Dash.dashRecord (Dash.dashInit S) samples).volume_history.length = 100 ∧
    (Dash.dashRecord (Dash.dashInit S) samples).time_history.length = 100 := by
  obtain ⟨hv, ht⟩ := dashRecord_histories samples (Dash.dashInit S)
    (by rw [dashInit_vh]; simp) (by rw [dashInit_vh, dashInit_th])
  rw [dashInit_vh] at hv ht
  rw [dashInit_th] at ht
  simp only [List.nil_append, List.length_nil, Nat.zero_add] at hv ht
  refine ⟨hv, ht, ?_, ?_⟩
  · rw [hv]
    simp
    omega
  · rw [ht]
    simp
    omega

/-- Claim C7, witnessed at 101 recorded samples. -/
theorem C7_ring_buffer_witness :
    100 < (List.replicate 101 ((0 : ℚ), (0 : ℚ))).length ∧
    (Dash.dashRecord (Dash.dashInit ℕ)
      (List.replicate 101 ((0 : ℚ), (0 : ℚ)))).volume_history.length = 100 :=
  ⟨by simp, (C7_ring_buffer (List.replicate 101 ((0 : ℚ), (0 : ℚ)))
    (by simp)).2.2.1⟩

/-! ## Claim C10: the dashboard surface stays None -/

/-- Claim C10: across every sequence of shared-state writes the tank_dash.py
module performs — volume updates from `pygame_loop`, the frame store (which
targets the attribute `pygame_surface`, without the leading underscore,
because `update_surface` is never called), and the flow callback — the field
`_pygame_surface` keeps its initial value `None`; hence `get_surface`
returns `None` and `update_tank_image` returns the empty string on every
invocation. -/
theorem C10_surface_stays_none {S : Type} (ops : List (Dash.DashOp S)) :
    (ops.foldl Dash.applyDashOp (Dash.dashInit S))._pygame_surface = none ∧
    Dash.get_surface (ops.foldl Dash.applyDashOp (Dash.dashInit S)) = none ∧
    Dash.update_tank_image (ops.foldl Dash.applyDashOp (Dash.dashInit S)) =
      Dash.TankImageSrc.emptyString := by
  have key : ∀ (st : Dash.DashShared S) (op : Dash.DashOp S),
      (Dash.applyDashOp st op)._pygame_surface = st._pygame_surface := by
    intro st op
    cases op with
    | loopUpdateVolume v t =>
        simp only [Dash.applyDashOp, Dash.update_volume]
        split <;> rfl
    | loopStoreFrame surface => rfl
    | cbSetFlows i o => rfl
  have hfold : ∀ (l : List (Dash.DashOp S)) (st : Dash.DashShared S),
      (l.foldl Dash.applyDashOp st)._pygame_surface = st._pygame_surface := by
    intro l
    induction l with
    | nil => intro st; rfl
    | cons op rest ih =>
        intro st
        rw [List.foldl_cons, ih, key]
  have h2 : (ops.foldl Dash.applyDashOp (Dash.dashInit S))._pygame_surface = none :=
    (hfold ops (Dash.dashInit S)).trans rfl
  refine ⟨h2, h2, ?_⟩
  simp [Dash.update_tank_image, Dash.get_surface, h2]
